import Mathlib

/-!
Verification of the collapsible-header coordination logic of the `ion-header`
component (`src/core/src/components/header/header.tsx`).

The DOM is modelled as a finite tree of elements carrying the attributes the
component reads: tag name, class list, the `collapse` property and the
rendered `clientHeight`.  `closest` is modelled as a search over an explicit
ancestor chain, `querySelector`/`querySelectorAll` as a preorder traversal of
the descendant subtrees.  The component's private fields become an explicit
state record, and the DOM side effects it performs (logging, observer
creation, listener registration, element cloning, class toggling) are
collected into an effect list.

The helper functions imported from `header.utils` (`createHeaderIndex`,
`setHeaderActive`, `handleToolbarIntersection`, `handleContentScroll`,
`cloneElement`) are not part of the available sources; they are modelled from
the specification text, and each such definition is marked
`Modelled from the spec:` in its doc comment.
-/

mutual
/-- A DOM element: tag name, class list, the `collapse` property (only
meaningful on `ion-header` elements), the rendered `clientHeight`, and the
child elements in document order. -/
inductive Dom : Type where
  | node (tag : String) (classes : List String) (collapse : Option String)
      (clientHeight : Nat) (children : DomForest) : Dom
  deriving Repr, DecidableEq
/-- The children of a `Dom` element, kept as a mutual inductive so that
recursion over the tree is structural (and hence computable by the
kernel). -/
inductive DomForest : Type where
  | nil : DomForest
  | cons (head : Dom) (tail : DomForest) : DomForest
  deriving Repr, DecidableEq
end

/-- Build a `DomForest` from a list of elements. -/
def domForest : List Dom → DomForest
  | [] => DomForest.nil
  | d :: rest => DomForest.cons d (domForest rest)

def Dom.tag : Dom → String
  | .node t _ _ _ _ => t

def Dom.classes : Dom → List String
  | .node _ c _ _ _ => c

def Dom.collapse : Dom → Option String
  | .node _ _ col _ _ => col

def Dom.clientHeight : Dom → Nat
  | .node _ _ _ h _ => h

def Dom.children : Dom → DomForest
  | .node _ _ _ _ cs => cs

mutual
/-- All strict descendants of an element in document (preorder) order —
`querySelectorAll` traverses descendants only, not the element itself. -/
def Dom.descendants : Dom → List Dom
  | .node _ _ _ _ cs => cs.preorder
/-- All elements of a forest in document order, each followed by its own
descendants. -/
def DomForest.preorder : DomForest → List Dom
  | .nil => []
  | .cons d rest => d :: (d.descendants ++ rest.preorder)
end

/-- `el.querySelectorAll(sel)`: all descendants matching the selector, in
document order. -/
def querySelectorAll (d : Dom) (p : Dom → Bool) : List Dom :=
  d.descendants.filter p

/-- `el.querySelector(sel)`: first descendant matching the selector in
document order. -/
def querySelector (d : Dom) (p : Dom → Bool) : Option Dom :=
  d.descendants.find? p

/-- Selector `ion-tabs`. -/
def isTabs (d : Dom) : Bool := d.tag == "ion-tabs"

/-- Selector `ion-app,ion-page,.ion-page,page-inner`. -/
def isPageLike (d : Dom) : Bool :=
  d.tag == "ion-app" || d.tag == "ion-page" || d.classes.contains "ion-page"
    || d.tag == "page-inner"

/-- Selector `ion-content`. -/
def isContent (d : Dom) : Bool := d.tag == "ion-content"

/-- Selector `ion-header`. -/
def isHeader (d : Dom) : Bool := d.tag == "ion-header"

/-- Selector `ion-toolbar`. -/
def isToolbar (d : Dom) : Bool := d.tag == "ion-toolbar"

/-- Selector `ion-title`. -/
def isTitle (d : Dom) : Bool := d.tag == "ion-title"

example :
    (Dom.node "ion-page" [] none 0 (domForest
      [Dom.node "ion-header" [] none 40 (domForest [Dom.node "ion-toolbar" [] none 40 (domForest [])]),
       Dom.node "ion-content" [] none 500 (domForest [])])).descendants.length = 3 := rfl

/-- Descriptor of a single toolbar within a header (`ToolbarIndex`). -/
structure ToolbarIndex where
  el : Dom
  ionTitleEl : Option Dom
deriving Repr, DecidableEq

/-- Descriptor of a single header element (`HeaderIndex`). -/
structure HeaderIndex where
  el : Dom
  toolbars : List ToolbarIndex
  isActive : Bool
deriving Repr, DecidableEq

/-- Modelled from the spec: `createHeaderIndex` lives in `header.utils`,
which is not among the sources.  Per §4.1 of the spec, given a header
element it returns a `HeaderIndex` or a failure signal (`none`, the
`NoToolbarsFound` case) when the header contains zero toolbars.  Each
toolbar in document order yields a `ToolbarIndex`; only the first toolbar
carries the scalable title element (when present and not itself a clone
marker).  A freshly indexed header is visible, hence active, until
`setHeaderActive` deactivates it. -/
def createHeaderIndex (headerEl : Dom) : Option HeaderIndex :=
  match querySelectorAll headerEl isToolbar with
  | [] => none
  | t0 :: rest =>
      some
        { el := headerEl
          toolbars :=
            { el := t0
              ionTitleEl :=
                querySelector t0
                  (fun e => isTitle e && !(e.classes.contains "ion-cloned-element")) }
              :: rest.map (fun t => { el := t, ionTitleEl := none })
          isActive := true }

/-- Modelled from the spec: `setHeaderActive` lives in `header.utils`,
which is not among the sources.  Per §4.2 of the spec, toggling the active
state sets the per-header active flag (driving an "is active" CSS-facing
class on the header's root element). -/
def setHeaderActive (idx : HeaderIndex) (active : Bool) : HeaderIndex :=
  { idx with isActive := active }

/-- Modelled from the spec: `handleToolbarIntersection` lives in
`header.utils`, which is not among the sources.  Per §4.2 of the spec, when
the condensing toolbar's intersection ratio drops below a cutoff near the
threshold, the primary header becomes active and the condensing header
inactive, and vice-versa when it re-enters.  Returns the updated
(primary, condensing) pair. -/
def handleToolbarIntersection (r cutoff : ℚ) (mainHeaderIndex scrollHeaderIndex : HeaderIndex) :
    HeaderIndex × HeaderIndex :=
  if r < cutoff then
    (setHeaderActive mainHeaderIndex true, setHeaderActive scrollHeaderIndex false)
  else
    (setHeaderActive mainHeaderIndex false, setHeaderActive scrollHeaderIndex true)

/-- Clamp `x` to the interval `[lo, hi]`. -/
def clampQ (lo x hi : ℚ) : ℚ := max lo (min x hi)

/-- Modelled from the spec: the scale computation of `handleContentScroll`
lives in `header.utils`, which is not among the sources.  Per §4.3 of the
spec, the scroll handler derives a scale factor for the scalable title by
interpolating between `1.0` (top of content) and a minimum scale as the
remaining height is consumed by scroll, clamped to `[minScale, 1.0]`. -/
def titleScale (minScale remHeight scrollTop : ℚ) : ℚ :=
  clampQ minScale (1 - (1 - minScale) * (scrollTop / remHeight)) 1

/-- Modelled from the spec: the border toggle of `handleContentScroll`,
per §4.3 of the spec — the border-visible class on the last toolbar's
decoration node is present exactly when the scroll offset has passed
zero. -/
def borderVisible (scrollTop : ℚ) : Bool := decide (0 < scrollTop)

/-- State of the Element Mirror (clone sync) subsystem.  Modelled from the
spec: `cloneElement` lives in `header.utils`, which is not among the
sources.  Per §4.4, the primary header holds at most one tagged clone per
mirror-eligible tag; `originals` are the tags for which an original element
exists inside the condensing header. -/
structure MirrorState where
  originals : List String
  clones : List String
deriving Repr, DecidableEq

/-- Modelled from the spec: `cloneElement` from `header.utils` is not among
the sources.  Per §4.4 of the spec, it locates the original element for the
given tag inside the condensing header and inserts a tagged cloned copy
into the primary header, skipping the operation when a clone already
exists (idempotence requirement) or when no original is present. -/
def cloneElement (tagName : String) (st : MirrorState) : MirrorState :=
  if st.clones.contains tagName then st
  else if st.originals.contains tagName then
    { st with clones := tagName :: st.clones }
  else st

/-- Configuration of the `IntersectionObserver` created during setup
(`header.tsx` line 118): numeric threshold, the four root-margin offsets in
pixels (the source builds the string `-<h>px 0px 0px 0px`), and the element
passed to `observe`. -/
structure ObserverConfig where
  threshold : ℚ
  rootMarginTop : Int
  rootMarginRight : Int
  rootMarginBottom : Int
  rootMarginLeft : Int
  target : Dom
deriving Repr, DecidableEq

/-- The closure state captured by `contentScrollCallback`
(`header.tsx` line 127): the precomputed remaining height handed to
`handleContentScroll` on every scroll event. -/
structure ScrollCallbackCfg where
  remainingHeight : Nat
deriving Repr, DecidableEq

/-- Observable side effects of the controller, in the order they are
performed. -/
inductive Effect where
  | consoleError (msg : String)
  | setActiveClass (headerEl : Dom) (active : Bool)
  | createObserver (cfg : ObserverConfig)
  | addScrollListener (el : Dom)
  | removeScrollListener (el : Dom)
  | disconnectObserver
  | cloneEl (tagName : String)
deriving Repr

/-- The private fields of the `Header` component class, together with the
header indices captured by the setup closures (`mainHeaderIndex`,
`scrollHeaderIndex` in `setupCollapsibleHeader`). -/
structure HeaderState where
  collapsibleHeaderInitialized : Bool
  scrollEl : Option Dom
  contentScrollCallback : Option ScrollCallbackCfg
  intersectionObserver : Option ObserverConfig
  mainHeaderIndex : Option HeaderIndex
  scrollHeaderIndex : Option HeaderIndex
deriving Repr, DecidableEq

/-- Initial component state: nothing initialized, no references held. -/
def initialHeaderState : HeaderState :=
  { collapsibleHeaderInitialized := false
    scrollEl := none
    contentScrollCallback := none
    intersectionObserver := none
    mainHeaderIndex := none
    scrollHeaderIndex := none }

/-- Environment the component reads from the host page: the platform mode
(`getIonMode`), the `collapse` prop, the component's own element
(`this.el`), the ancestor chain used by `closest` (nearest first), and the
scroll element resolution of `ion-content.getScrollElement()`. -/
structure Env where
  mode : String
  collapse : Option String
  selfEl : Dom
  ancestors : List Dom
  getScrollElement : Dom → Dom

/-- `header.tsx` lines 58-59: the header can collapse when the `collapse`
prop is `condense` and the platform mode is `ios`. -/
def canCollapse (env : Env) : Bool :=
  let hasCollapse := env.collapse == some "condense"
  if hasCollapse && (env.mode == "ios") then hasCollapse else false

/-- `header.tsx` lines 64-67: `closest('ion-tabs')` wins over
`closest('ion-app,ion-page,.ion-page,page-inner')`. -/
def findPageEl (ancestors : List Dom) : Option Dom :=
  let tabs := ancestors.find? isTabs
  let page := ancestors.find? isPageLike
  match tabs with
  | some t => some t
  | none =>
      match page with
      | some p => some p
      | none => none

/-- `header.tsx` lines 92-93: the primary header is the first `ion-header`
under the page element whose `collapse` property is not `condense`. -/
def findMainHeader (pageEl : Dom) : Option Dom :=
  (querySelectorAll pageEl isHeader).find? (fun h => h.collapse != some "condense")

/-- `header.tsx` lines 105-108: the loop
`for (let i = 1; i <= toolbars.length - 1; i++) rh += toolbars[i].el.clientHeight`
accumulating the combined height of all toolbars below the first. -/
def remainingHeightAux (tbs : List ToolbarIndex) : Nat → Nat → Nat
  | 0, _ => 0
  | fuel + 1, i =>
      if h : i < tbs.length then
        (tbs.get ⟨i, h⟩).el.clientHeight + remainingHeightAux tbs fuel (i + 1)
      else 0

/-- The remaining-height value computed during setup: the loop starts at
index 1 and runs to the end of the toolbar list (`tbs.length` iterations
are always enough fuel). -/
def remainingHeight (tbs : List ToolbarIndex) : Nat :=
  remainingHeightAux tbs tbs.length 1

/-- `header.tsx` lines 74-84, `destroyCollapsibleHeader`: disconnect the
intersection observer when present, remove the scroll listener when both
the scroll element and the callback are present.  The
`collapsibleHeaderInitialized` flag and `scrollEl` are left untouched. -/
def destroyCollapsibleHeader (st : HeaderState) : HeaderState × List Effect :=
  let p1 : HeaderState × List Effect :=
    match st.intersectionObserver with
    | some _ => ({ st with intersectionObserver := none }, [Effect.disconnectObserver])
    | none => (st, [])
  match p1.1.scrollEl, p1.1.contentScrollCallback with
  | some sc, some _ =>
      ({ p1.1 with contentScrollCallback := none }, p1.2 ++ [Effect.removeScrollListener sc])
  | _, _ => p1

/-- `header.tsx` lines 116-119: the intersection observer is created with
threshold `0.25` and root margin `-<mainHeaderHeight>px 0px 0px 0px`, and
observes the condensing header's first toolbar. -/
def setupObserverCfg (mIdx : HeaderIndex) (tb0 : ToolbarIndex) : ObserverConfig :=
  { threshold := 1 / 4
    rootMarginTop := -(mIdx.el.clientHeight : Int)
    rootMarginRight := 0
    rootMarginBottom := 0
    rootMarginLeft := 0
    target := tb0.el }

/-- `header.tsx` lines 86-137, `setupCollapsibleHeader`.  When the content
or page element is missing, log and return without touching the state.
Otherwise resolve the scroll element, run the read task (locate the primary
header, build both header indices, deactivate the primary header, compute
the remaining height, create the intersection observer on the condensing
header's first toolbar, attach the scroll listener), run the write task
(clone `ion-title` and `ion-back-button`), and finally mark the controller
initialized. -/
def setupCollapsibleHeader (env : Env) (contentEl pageEl : Option Dom)
    (st : HeaderState) : HeaderState × List Effect :=
  match contentEl, pageEl with
  | some c, some p =>
      let st1 : HeaderState := { st with scrollEl := some (env.getScrollElement c) }
      let readPart : HeaderState × List Effect :=
        match findMainHeader p, st1.scrollEl with
        | some mh, some scEl =>
            match createHeaderIndex mh, createHeaderIndex env.selfEl with
            | some mIdx0, some sIdx =>
                let mIdx := setHeaderActive mIdx0 false
                let rh := remainingHeight sIdx.toolbars
                match sIdx.toolbars.head? with
                | some tb0 =>
                    let cfg : ObserverConfig := setupObserverCfg mIdx tb0
                    ({ st1 with
                        intersectionObserver := some cfg
                        contentScrollCallback := some { remainingHeight := rh }
                        mainHeaderIndex := some mIdx
                        scrollHeaderIndex := some sIdx },
                     [Effect.setActiveClass mIdx.el false,
                      Effect.createObserver cfg,
                      Effect.addScrollListener scEl])
                | none =>
                    -- unreachable: createHeaderIndex only succeeds with ≥ 1 toolbar
                    (st1, [Effect.setActiveClass mIdx.el false])
            | _, _ => (st1, [])
        | _, _ => (st1, [])
      ({ readPart.1 with collapsibleHeaderInitialized := true },
       readPart.2 ++ [Effect.cloneEl "ion-title", Effect.cloneEl "ion-back-button"])
  | _, _ =>
      (st, [Effect.consoleError
        "ion-header requires a content to collapse, make sure there is an ion-content."])

/-- `header.tsx` lines 55-72, `checkCollapsibleHeader`: tear down when
collapsing is no longer possible but the controller is initialized; run
setup when collapsing is possible and the controller is not initialized,
resolving the page element (tabs ancestor first, then page-like ancestor)
and the `ion-content` inside it; otherwise do nothing. -/
def checkCollapsibleHeader (env : Env) (st : HeaderState) : HeaderState × List Effect :=
  if !(canCollapse env) && st.collapsibleHeaderInitialized then
    destroyCollapsibleHeader st
  else if canCollapse env && !st.collapsibleHeaderInitialized then
    let pageEl := findPageEl env.ancestors
    let contentEl :=
      match pageEl with
      | some p => querySelector p isContent
      | none => none
    setupCollapsibleHeader env contentEl pageEl st
  else (st, [])

/-- A large-title element inside the condensing header's first toolbar. -/
def demoTitleEl : Dom := Dom.node "ion-title" [] none 20 (domForest [])

/-- A condensing header's first toolbar, carrying the large title. -/
def demoToolbar1 : Dom :=
  Dom.node "ion-toolbar" [] none 44 (domForest [demoTitleEl])

/-- A second toolbar (e.g. a search bar) below the first. -/
def demoToolbar2 : Dom := Dom.node "ion-toolbar" [] none 56 (domForest [])

/-- A condensing header (`collapse = condense`) with two toolbars. -/
def demoCondenseHeader : Dom :=
  Dom.node "ion-header" [] (some "condense") 100 (domForest [demoToolbar1, demoToolbar2])

/-- The primary header's single toolbar. -/
def demoMainToolbar : Dom := Dom.node "ion-toolbar" [] none 44 (domForest [])

/-- A primary header (no `collapse` prop) with one toolbar. -/
def demoMainHeader : Dom := Dom.node "ion-header" [] none 44 (domForest [demoMainToolbar])

/-- A content region inside the page. -/
def demoContent : Dom := Dom.node "ion-content" [] none 500 (domForest [])

/-- A page element containing the primary header, the condensing header and
the content region, in document order. -/
def demoPage : Dom :=
  Dom.node "ion-page" [] none 600 (domForest [demoMainHeader, demoCondenseHeader, demoContent])

/-- An environment in which setup succeeds: iOS mode, `collapse` set to
`condense`, the page element as nearest ancestor, and the content element
acting as its own scroll element. -/
def demoEnv : Env :=
  { mode := "ios"
    collapse := some "condense"
    selfEl := demoCondenseHeader
    ancestors := [demoPage]
    getScrollElement := fun c => c }

example : (checkCollapsibleHeader demoEnv initialHeaderState).1.collapsibleHeaderInitialized = true := rfl

/-! ## Helper lemmas -/

/-- A successfully built header index has at least one toolbar
(`NoToolbarsFound` is signalled otherwise). -/
theorem createHeaderIndex_toolbars_cons {h : Dom} {idx : HeaderIndex}
    (hh : createHeaderIndex h = some idx) :
    ∃ tb0 rest, idx.toolbars = tb0 :: rest := by
  simp only [createHeaderIndex] at hh
  cases hq : querySelectorAll h isToolbar with
  | nil => simp [hq] at hh
  | cons t0 r =>
      simp only [hq] at hh
      injection hh with hh
      exact ⟨_, _, by rw [← hh]⟩

/-- A successfully built header index starts with its active flag set. -/
theorem createHeaderIndex_isActive {h : Dom} {idx : HeaderIndex}
    (hh : createHeaderIndex h = some idx) : idx.isActive = true := by
  simp only [createHeaderIndex] at hh
  cases hq : querySelectorAll h isToolbar with
  | nil => simp [hq] at hh
  | cons t0 r =>
      simp only [hq] at hh
      injection hh with hh
      rw [← hh]

/-- `canCollapse` holds exactly when the `collapse` prop is `condense` and
the platform mode is `ios`. -/
theorem canCollapse_iff (env : Env) :
    canCollapse env = true ↔ (env.collapse = some "condense" ∧ env.mode = "ios") := by
  simp only [canCollapse]
  cases h1 : (env.collapse == some "condense") <;>
    cases h2 : (env.mode == "ios") <;>
      simp_all [beq_iff_eq, beq_eq_false_iff_ne]

/-- The remaining-height loop sums the client heights of the toolbars from
index `i` on, given enough fuel. -/
theorem remainingHeightAux_eq_sum (tbs : List ToolbarIndex) :
    ∀ fuel i, tbs.length ≤ fuel + i →
      remainingHeightAux tbs fuel i =
        ((tbs.drop i).map (fun t => t.el.clientHeight)).sum
  | 0, i, h => by
      rw [List.drop_eq_nil_of_le (by omega)]
      simp [remainingHeightAux]
  | fuel + 1, i, h => by
      simp only [remainingHeightAux]
      by_cases hi : i < tbs.length
      · rw [dif_pos hi, remainingHeightAux_eq_sum tbs fuel (i + 1) (by omega),
          List.drop_eq_getElem_cons hi, List.map_cons, List.sum_cons,
          List.get_eq_getElem]
      · rw [dif_neg hi, List.drop_eq_nil_of_le (by omega)]
        rfl

/-- The remaining height computed by the setup loop equals the sum of the
client heights of every toolbar below the first. -/
theorem remainingHeight_eq_sum (tbs : List ToolbarIndex) :
    remainingHeight tbs = ((tbs.drop 1).map (fun t => t.el.clientHeight)).sum :=
  remainingHeightAux_eq_sum tbs tbs.length 1 (by omega)

/-- Full characterisation of a successful `Uninitialized → Active` setup:
when collapsing is possible, the controller is not yet initialized, and the
page, content, primary header and both header indices can all be resolved,
one update performs the complete wiring. -/
theorem checkCollapsible_setup_eq (env : Env) (st : HeaderState)
    (p c mh : Dom) (mIdx0 sIdx : HeaderIndex) (tb0 : ToolbarIndex)
    (tbrest : List ToolbarIndex)
    (hini : st.collapsibleHeaderInitialized = false)
    (hcan : canCollapse env = true)
    (hpage : findPageEl env.ancestors = some p)
    (hcont : querySelector p isContent = some c)
    (hmain : findMainHeader p = some mh)
    (hmidx : createHeaderIndex mh = some mIdx0)
    (hsidx : createHeaderIndex env.selfEl = some sIdx)
    (htb : sIdx.toolbars = tb0 :: tbrest) :
    checkCollapsibleHeader env st =
      ({ st with
          collapsibleHeaderInitialized := true
          scrollEl := some (env.getScrollElement c)
          contentScrollCallback := some { remainingHeight := remainingHeight sIdx.toolbars }
          intersectionObserver := some (setupObserverCfg (setHeaderActive mIdx0 false) tb0)
          mainHeaderIndex := some (setHeaderActive mIdx0 false)
          scrollHeaderIndex := some sIdx },
       [Effect.setActiveClass mIdx0.el false,
        Effect.createObserver (setupObserverCfg (setHeaderActive mIdx0 false) tb0),
        Effect.addScrollListener (env.getScrollElement c),
        Effect.cloneEl "ion-title",
        Effect.cloneEl "ion-back-button"]) := by
  simp only [checkCollapsibleHeader, hcan, hini, Bool.not_true, Bool.and_false,
    Bool.false_and, Bool.not_false, Bool.and_true, Bool.true_and, if_false, if_true,
    Bool.false_eq_true, ite_false, ite_true, hpage]
  simp only [setupCollapsibleHeader, hcont, hmain, hmidx, hsidx, htb,
    List.head?_cons, setHeaderActive]
  rfl

/-- While already initialized and still able to collapse, an update is a
no-op (guarded by the initialized flag). -/
theorem checkCollapsible_active_noop (env : Env) (st : HeaderState)
    (hini : st.collapsibleHeaderInitialized = true)
    (hcan : canCollapse env = true) :
    checkCollapsibleHeader env st = (st, []) := by
  simp [checkCollapsibleHeader, hcan, hini]

/-- While not initialized and unable to collapse, an update is a no-op. -/
theorem checkCollapsible_disabled_noop (env : Env) (st : HeaderState)
    (hini : st.collapsibleHeaderInitialized = false)
    (hcan : canCollapse env = false) :
    checkCollapsibleHeader env st = (st, []) := by
  simp [checkCollapsibleHeader, hcan, hini]

/-- Tear-down path: when collapsing is no longer possible and the
controller holds a live observer, a scroll element and a scroll callback,
the update disconnects the observer and removes the scroll listener.  The
initialized flag is not cleared. -/
theorem checkCollapsible_destroy_eq (env : Env) (st : HeaderState)
    (cfg : ObserverConfig) (sc : Dom) (cb : ScrollCallbackCfg)
    (hini : st.collapsibleHeaderInitialized = true)
    (hcan : canCollapse env = false)
    (hobs : st.intersectionObserver = some cfg)
    (hsc : st.scrollEl = some sc)
    (hcb : st.contentScrollCallback = some cb) :
    checkCollapsibleHeader env st =
      ({ st with intersectionObserver := none, contentScrollCallback := none },
       [Effect.disconnectObserver, Effect.removeScrollListener sc]) := by
  simp only [checkCollapsibleHeader, hcan, hini, Bool.not_false, Bool.and_true,
    if_true, ite_true]
  simp only [destroyCollapsibleHeader, hobs, hsc, hcb]
  simp [hini]

/-- Soft-failure path: when the page element or the `ion-content` inside it
cannot be located, setup logs an error and leaves the state untouched — in
particular the controller stays uninitialized, so the next update retries. -/
theorem checkCollapsible_missing_content_eq (env : Env) (st : HeaderState)
    (hini : st.collapsibleHeaderInitialized = false)
    (hcan : canCollapse env = true)
    (hmiss : (findPageEl env.ancestors).bind (fun p => querySelector p isContent) = none) :
    checkCollapsibleHeader env st =
      (st, [Effect.consoleError
        "ion-header requires a content to collapse, make sure there is an ion-content."]) := by
  cases hpage : findPageEl env.ancestors with
  | none =>
      simp [checkCollapsibleHeader, setupCollapsibleHeader, hcan, hini, hpage]
  | some p =>
      rw [hpage] at hmiss
      have hcq : querySelector p isContent = none := by simpa using hmiss
      simp [checkCollapsibleHeader, setupCollapsibleHeader, hcan, hini, hpage, hcq]

/-- Missing-primary-header path: when the page and content are found but no
`ion-header` without `collapse = condense` exists under the page element,
the read task bails out early — yet the controller still resolves the
scroll element, still schedules the clone pass, logs nothing, and marks
itself initialized, so the next update does not retry. -/
theorem checkCollapsible_missing_main_eq (env : Env) (st : HeaderState)
    (p c : Dom)
    (hini : st.collapsibleHeaderInitialized = false)
    (hcan : canCollapse env = true)
    (hpage : findPageEl env.ancestors = some p)
    (hcont : querySelector p isContent = some c)
    (hmain : findMainHeader p = none) :
    checkCollapsibleHeader env st =
      ({ st with
          collapsibleHeaderInitialized := true
          scrollEl := some (env.getScrollElement c) },
       [Effect.cloneEl "ion-title", Effect.cloneEl "ion-back-button"]) := by
  simp only [checkCollapsibleHeader, hcan, hini, Bool.not_true, Bool.false_and,
    Bool.and_true, Bool.not_false, Bool.true_and, if_false, if_true,
    Bool.false_eq_true, ite_false, ite_true, hpage]
  simp only [setupCollapsibleHeader, hcont, hmain]
  rfl

/-- The header index built for the demo primary header. -/
def demoMainIndex : HeaderIndex :=
  { el := demoMainHeader
    toolbars := [{ el := demoMainToolbar, ionTitleEl := none }]
    isActive := true }

/-- The first toolbar index of the demo condensing header. -/
def demoScrollTb0 : ToolbarIndex := { el := demoToolbar1, ionTitleEl := some demoTitleEl }

/-- The header index built for the demo condensing header. -/
def demoScrollIndex : HeaderIndex :=
  { el := demoCondenseHeader
    toolbars := [demoScrollTb0, { el := demoToolbar2, ionTitleEl := none }]
    isActive := true }

example : createHeaderIndex demoMainHeader = some demoMainIndex := rfl

example : createHeaderIndex demoCondenseHeader = some demoScrollIndex := rfl

/-- An `ion-tabs` ancestor element. -/
def demoTabs : Dom := Dom.node "ion-tabs" [] none 800 (domForest [])

/-- A page whose condensing header precedes the primary header in document
order. -/
def pageCondenseFirst : Dom :=
  Dom.node "ion-page" [] none 600 (domForest [demoCondenseHeader, demoMainHeader, demoContent])

/-- A page with a content region but no primary (non-condense) header. -/
def pageNoMain : Dom :=
  Dom.node "ion-page" [] none 600 (domForest [demoCondenseHeader, demoContent])

/-- An environment whose page lacks a primary header. -/
def envNoMain : Env :=
  { mode := "ios"
    collapse := some "condense"
    selfEl := demoCondenseHeader
    ancestors := [pageNoMain]
    getScrollElement := fun c => c }

/-- A page with headers but no `ion-content`. -/
def pageNoContent : Dom :=
  Dom.node "ion-page" [] none 600 (domForest [demoMainHeader, demoCondenseHeader])

/-- An environment whose page lacks a content region. -/
def envNoContent : Env :=
  { mode := "ios"
    collapse := some "condense"
    selfEl := demoCondenseHeader
    ancestors := [pageNoContent]
    getScrollElement := fun c => c }

/-- The demo environment with the `collapse` prop removed. -/
def demoEnvOff : Env := { demoEnv with collapse := none }

/-- The controller state after a successful setup in the demo environment. -/
def demoActiveState : HeaderState := (checkCollapsibleHeader demoEnv initialHeaderState).1

/-- The controller state after a subsequent update with collapsing turned
off (tear-down). -/
def demoTornDownState : HeaderState := (checkCollapsibleHeader demoEnvOff demoActiveState).1

/-- The observer configuration created during the demo setup. -/
def demoObserverCfg : ObserverConfig :=
  setupObserverCfg (setHeaderActive demoMainIndex false) demoScrollTb0

example : demoActiveState.intersectionObserver = some demoObserverCfg := rfl

/-- Recogniser for observer-creation effects. -/
def isCreateObserverEff : Effect → Bool
  | .createObserver _ => true
  | _ => false

/-- The element stored in a successfully built header index is the header
element it was built from. -/
theorem createHeaderIndex_el {h : Dom} {idx : HeaderIndex}
    (hh : createHeaderIndex h = some idx) : idx.el = h := by
  simp only [createHeaderIndex] at hh
  cases hq : querySelectorAll h isToolbar with
  | nil => simp [hq] at hh
  | cons t0 r =>
      simp only [hq] at hh
      injection hh with hh
      rw [← hh]

/-! ## Claims -/

/-- C5: for every condensing header index, the remaining height passed to
the scroll handler equals the sum of the client heights of the toolbars at
indices 1 through n-1 (every toolbar below the first); for a single-toolbar
header it is 0. -/
theorem c5_remaining_height_below_first (env : Env) (st : HeaderState)
    (p c mh : Dom) (mIdx0 sIdx : HeaderIndex) (tb0 : ToolbarIndex)
    (tbrest : List ToolbarIndex)
    (hini : st.collapsibleHeaderInitialized = false)
    (hcan : canCollapse env = true)
    (hpage : findPageEl env.ancestors = some p)
    (hcont : querySelector p isContent = some c)
    (hmain : findMainHeader p = some mh)
    (hmidx : createHeaderIndex mh = some mIdx0)
    (hsidx : createHeaderIndex env.selfEl = some sIdx)
    (htb : sIdx.toolbars = tb0 :: tbrest) :
    (checkCollapsibleHeader env st).1.contentScrollCallback =
      some { remainingHeight :=
        ((sIdx.toolbars.drop 1).map (fun t => t.el.clientHeight)).sum } ∧
    (sIdx.toolbars.length = 1 →
      (checkCollapsibleHeader env st).1.contentScrollCallback =
        some { remainingHeight := 0 }) := by
  rw [checkCollapsible_setup_eq env st p c mh mIdx0 sIdx tb0 tbrest
    hini hcan hpage hcont hmain hmidx hsidx htb]
  refine ⟨by rw [remainingHeight_eq_sum], fun hlen => ?_⟩
  rw [remainingHeight_eq_sum, List.drop_eq_nil_of_le (by omega)]
  rfl

/-- Witness for C5 on the demo page: the condensing header has toolbars of
heights 44 and 56, so the remaining height is 56. -/
theorem c5_remaining_height_below_first_witness :
    (checkCollapsibleHeader demoEnv initialHeaderState).1.contentScrollCallback =
      some { remainingHeight := 56 } := by
  have h := c5_remaining_height_below_first demoEnv initialHeaderState
    demoPage demoContent demoMainHeader demoMainIndex demoScrollIndex
    demoScrollTb0 [{ el := demoToolbar2, ionTitleEl := none }]
    rfl rfl rfl rfl rfl rfl rfl rfl
  exact h.1

/-- C7: invoking the element-mirror clone operation twice is idempotent,
and for each mirror-eligible element (the title and the back button) with
an original present and no pre-existing clone, exactly one clone exists
afterwards, never two. -/
theorem c7_clone_idempotent (st : MirrorState)
    (htO : st.originals.contains "ion-title" = true)
    (hbO : st.originals.contains "ion-back-button" = true)
    (htC : st.clones.contains "ion-title" = false)
    (hbC : st.clones.contains "ion-back-button" = false) :
    (∀ (s : MirrorState) (tagName : String),
        cloneElement tagName (cloneElement tagName s) = cloneElement tagName s) ∧
    (cloneElement "ion-back-button" (cloneElement "ion-title"
        (cloneElement "ion-back-button" (cloneElement "ion-title" st))) =
      cloneElement "ion-back-button" (cloneElement "ion-title" st)) ∧
    (cloneElement "ion-back-button" (cloneElement "ion-title"
        (cloneElement "ion-back-button" (cloneElement "ion-title" st)))).clones.count
        "ion-title" = 1 ∧
    (cloneElement "ion-back-button" (cloneElement "ion-title"
        (cloneElement "ion-back-button" (cloneElement "ion-title" st)))).clones.count
        "ion-back-button" = 1 := by
  have htO' : "ion-title" ∈ st.originals := by simpa using htO
  have hbO' : "ion-back-button" ∈ st.originals := by simpa using hbO
  have htC' : "ion-title" ∉ st.clones := by simpa using htC
  have hbC' : "ion-back-button" ∉ st.clones := by simpa using hbC
  have hidem : ∀ (s : MirrorState) (tagName : String),
      cloneElement tagName (cloneElement tagName s) = cloneElement tagName s := by
    intro s tagName
    by_cases h1 : tagName ∈ s.clones
    · simp [cloneElement, h1]
    · by_cases h2 : tagName ∈ s.originals
      · simp [cloneElement, h1, h2]
      · simp [cloneElement, h1, h2]
  have hs1 : cloneElement "ion-title" st =
      { st with clones := "ion-title" :: st.clones } := by
    simp [cloneElement, htC', htO']
  have hs2 : cloneElement "ion-back-button" (cloneElement "ion-title" st) =
      { st with clones := "ion-back-button" :: "ion-title" :: st.clones } := by
    rw [hs1]
    simp [cloneElement, hbC', hbO']
  refine ⟨hidem, ?_, ?_, ?_⟩
  · rw [hs2]
    simp [cloneElement]
  · rw [hs2]
    simp [cloneElement, List.count_cons, List.count_eq_zero.mpr htC']
  · rw [hs2]
    simp [cloneElement, List.count_cons, List.count_eq_zero.mpr hbC']

/-- Witness for C7 on a mirror state holding both originals and no
clones. -/
theorem c7_clone_idempotent_witness :
    (cloneElement "ion-back-button" (cloneElement "ion-title"
        (cloneElement "ion-back-button" (cloneElement "ion-title"
          { originals := ["ion-title", "ion-back-button"], clones := [] }))) =
      cloneElement "ion-back-button" (cloneElement "ion-title"
        { originals := ["ion-title", "ion-back-button"], clones := [] })) ∧
    (cloneElement "ion-back-button" (cloneElement "ion-title"
        (cloneElement "ion-back-button" (cloneElement "ion-title"
          { originals := ["ion-title", "ion-back-button"], clones := [] })))).clones.count
        "ion-title" = 1 := by
  have h := c7_clone_idempotent
    { originals := ["ion-title", "ion-back-button"], clones := [] }
    (by decide) (by decide) (by decide) (by decide)
  exact ⟨h.2.1, h.2.2.1⟩

/-- C8: over scroll offsets `0 ≤ s1 ≤ s2 ≤ remaining height`, the title
scale factor is non-increasing, and for every offset it lies in
`[minScale, 1]`. -/
theorem c8_scale_monotone_bounded (m rh s1 s2 : ℚ)
    (hm : m ≤ 1) (h0 : 0 ≤ s1) (h12 : s1 ≤ s2) (h2 : s2 ≤ rh) :
    titleScale m rh s2 ≤ titleScale m rh s1 ∧
    ∀ s : ℚ, m ≤ titleScale m rh s ∧ titleScale m rh s ≤ 1 := by
  constructor
  · have hrh : (0 : ℚ) ≤ rh := le_trans h0 (le_trans h12 h2)
    have hdiv : s1 / rh ≤ s2 / rh := by
      rw [div_eq_mul_inv, div_eq_mul_inv]
      exact mul_le_mul_of_nonneg_right h12 (inv_nonneg.mpr hrh)
    have hmul : (1 - m) * (s1 / rh) ≤ (1 - m) * (s2 / rh) :=
      mul_le_mul_of_nonneg_left hdiv (by linarith)
    have hsub : 1 - (1 - m) * (s2 / rh) ≤ 1 - (1 - m) * (s1 / rh) := by linarith
    exact max_le_max le_rfl (min_le_min hsub le_rfl)
  · intro s
    exact ⟨le_max_left _ _, max_le hm (min_le_right _ _)⟩

/-- Witness for C8 with `minScale = 4/5`, remaining height 100, offsets 10
and 50. -/
theorem c8_scale_monotone_bounded_witness :
    titleScale (4 / 5) 100 50 ≤ titleScale (4 / 5) 100 10 ∧
    (4 / 5 : ℚ) ≤ titleScale (4 / 5) 100 25 ∧ titleScale (4 / 5) 100 25 ≤ 1 := by
  have h := c8_scale_monotone_bounded (4 / 5) 100 10 50
    (by norm_num) (by norm_num) (by norm_num) (by norm_num)
  exact ⟨h.1, h.2 25⟩

/-- C9: the page container is chosen with fixed precedence — the closest
`ion-tabs` ancestor wins over the closest page-like ancestor — and within
the chosen container the primary header is the first `ion-header` in
document order whose `collapse` property is not `condense`. -/
theorem c9_page_precedence_and_main_header :
    (∀ (ancs : List Dom) (t : Dom),
        ancs.find? isTabs = some t → findPageEl ancs = some t) ∧
    (∀ ancs : List Dom,
        ancs.find? isTabs = none → findPageEl ancs = ancs.find? isPageLike) ∧
    (∀ (p mh : Dom), findMainHeader p = some mh →
        mh ∈ querySelectorAll p isHeader ∧ mh.collapse ≠ some "condense" ∧
        ∃ pre post, querySelectorAll p isHeader = pre ++ mh :: post ∧
          ∀ h ∈ pre, h.collapse = some "condense") := by
  refine ⟨?_, ?_, ?_⟩
  · intro ancs t ht
    simp [findPageEl, ht]
  · intro ancs ht
    simp only [findPageEl, ht]
    cases ancs.find? isPageLike <;> rfl
  · intro p mh hfind
    obtain ⟨hq, pre, post, heq, hall⟩ := List.find?_eq_some.mp hfind
    refine ⟨?_, ?_, pre, post, heq, ?_⟩
    · rw [heq]
      exact List.mem_append_right pre (List.mem_cons_self mh post)
    · simpa using hq
    · intro h hh
      have := hall h hh
      simpa using this

/-- Witness for C9: a tabs ancestor farther away than a page-like ancestor
still wins, and on a page whose condensing header comes first in document
order the primary header is the later non-condense one. -/
theorem c9_page_precedence_and_main_header_witness :
    findPageEl [demoPage, demoTabs] = some demoTabs ∧
    (demoMainHeader ∈ querySelectorAll pageCondenseFirst isHeader ∧
     demoMainHeader.collapse ≠ some "condense" ∧
     ∃ pre post, querySelectorAll pageCondenseFirst isHeader = pre ++ demoMainHeader :: post ∧
       ∀ h ∈ pre, h.collapse = some "condense") :=
  ⟨c9_page_precedence_and_main_header.1 [demoPage, demoTabs] demoTabs rfl,
   c9_page_precedence_and_main_header.2.2 pageCondenseFirst demoMainHeader rfl⟩

/-- C3: from a fresh (Disabled) controller on a well-formed page,
collapsible-header setup is performed if and only if the `collapse`
configuration equals `condense` and the platform mode is `ios`; when
`collapse` is not `condense` the controller state is unchanged and no
scroll listener or visibility observer is registered. -/
theorem c3_setup_iff_condense_and_ios (env : Env) (st : HeaderState)
    (p c mh : Dom) (mIdx0 sIdx : HeaderIndex) (tb0 : ToolbarIndex)
    (tbrest : List ToolbarIndex)
    (hini : st.collapsibleHeaderInitialized = false)
    (hpage : findPageEl env.ancestors = some p)
    (hcont : querySelector p isContent = some c)
    (hmain : findMainHeader p = some mh)
    (hmidx : createHeaderIndex mh = some mIdx0)
    (hsidx : createHeaderIndex env.selfEl = some sIdx)
    (htb : sIdx.toolbars = tb0 :: tbrest) :
    (((checkCollapsibleHeader env st).1.collapsibleHeaderInitialized = true ∧
      ((checkCollapsibleHeader env st).1.intersectionObserver).isSome = true ∧
      ((checkCollapsibleHeader env st).1.contentScrollCallback).isSome = true) ↔
      (env.collapse = some "condense" ∧ env.mode = "ios")) ∧
    (env.collapse ≠ some "condense" → checkCollapsibleHeader env st = (st, [])) := by
  constructor
  · constructor
    · intro hdone
      by_contra hnot
      have hcan : canCollapse env = false := by
        cases hc : canCollapse env
        · rfl
        · exact absurd ((canCollapse_iff env).mp hc) hnot
      rw [checkCollapsible_disabled_noop env st hini hcan] at hdone
      rw [hini] at hdone
      exact Bool.false_ne_true hdone.1
    · intro hcm
      have hcan : canCollapse env = true := (canCollapse_iff env).mpr hcm
      rw [checkCollapsible_setup_eq env st p c mh mIdx0 sIdx tb0 tbrest
        hini hcan hpage hcont hmain hmidx hsidx htb]
      exact ⟨rfl, rfl, rfl⟩
  · intro hne
    have hcan : canCollapse env = false := by
      cases hc : canCollapse env
      · rfl
      · exact absurd ((canCollapse_iff env).mp hc).1 hne
    exact checkCollapsible_disabled_noop env st hini hcan

/-- Witness for C3 on the demo page: with `condense` + iOS setup runs, and
with the prop removed the update is a strict no-op. -/
theorem c3_setup_iff_condense_and_ios_witness :
    (checkCollapsibleHeader demoEnv initialHeaderState).1.collapsibleHeaderInitialized = true ∧
    checkCollapsibleHeader demoEnvOff initialHeaderState = (initialHeaderState, []) := by
  have h1 := c3_setup_iff_condense_and_ios demoEnv initialHeaderState
    demoPage demoContent demoMainHeader demoMainIndex demoScrollIndex
    demoScrollTb0 [{ el := demoToolbar2, ionTitleEl := none }]
    rfl rfl rfl rfl rfl rfl rfl
  have h2 := c3_setup_iff_condense_and_ios demoEnvOff initialHeaderState
    demoPage demoContent demoMainHeader demoMainIndex demoScrollIndex
    demoScrollTb0 [{ el := demoToolbar2, ionTitleEl := none }]
    rfl rfl rfl rfl rfl rfl rfl
  exact ⟨(h1.1.mpr ⟨rfl, rfl⟩).1, h2.2 (by simp [demoEnvOff, demoEnv])⟩

/-- C4: on successful setup the visibility observer is configured with
threshold exactly 0.25 and a root margin whose top offset is the negative
of the primary header's rendered height (the other three offsets are 0),
it observes exactly the first toolbar of the condensing header's index,
exactly one observer-creation effect is emitted, a further update while
active creates no second observer, and teardown clears the observer. -/
theorem c4_observer_config (env : Env) (st : HeaderState)
    (p c mh : Dom) (mIdx0 sIdx : HeaderIndex) (tb0 : ToolbarIndex)
    (tbrest : List ToolbarIndex)
    (hini : st.collapsibleHeaderInitialized = false)
    (hcan : canCollapse env = true)
    (hpage : findPageEl env.ancestors = some p)
    (hcont : querySelector p isContent = some c)
    (hmain : findMainHeader p = some mh)
    (hmidx : createHeaderIndex mh = some mIdx0)
    (hsidx : createHeaderIndex env.selfEl = some sIdx)
    (htb : sIdx.toolbars = tb0 :: tbrest) :
    ∃ cfg : ObserverConfig,
      (checkCollapsibleHeader env st).1.intersectionObserver = some cfg ∧
      cfg.threshold = 1 / 4 ∧
      cfg.rootMarginTop = -(mh.clientHeight : Int) ∧
      cfg.rootMarginRight = 0 ∧ cfg.rootMarginBottom = 0 ∧ cfg.rootMarginLeft = 0 ∧
      cfg.target = tb0.el ∧
      ((checkCollapsibleHeader env st).2.countP isCreateObserverEff) = 1 ∧
      checkCollapsibleHeader env (checkCollapsibleHeader env st).1 =
        ((checkCollapsibleHeader env st).1, []) ∧
      (destroyCollapsibleHeader (checkCollapsibleHeader env st).1).1.intersectionObserver =
        none := by
  have hel : mIdx0.el = mh := createHeaderIndex_el hmidx
  rw [checkCollapsible_setup_eq env st p c mh mIdx0 sIdx tb0 tbrest
    hini hcan hpage hcont hmain hmidx hsidx htb]
  refine ⟨setupObserverCfg (setHeaderActive mIdx0 false) tb0,
    rfl, rfl, ?_, rfl, rfl, rfl, rfl, rfl, ?_, ?_⟩
  · simp [setupObserverCfg, setHeaderActive, hel]
  · exact checkCollapsible_active_noop env _ rfl hcan
  · rfl

/-- Witness for C4 on the demo page: the demo primary header is 44px tall,
so the root margin top offset is -44, and the observed target is the
condensing header's first toolbar. -/
theorem c4_observer_config_witness :
    demoActiveState.intersectionObserver = some demoObserverCfg ∧
    demoObserverCfg.threshold = 1 / 4 ∧
    demoObserverCfg.rootMarginTop = -44 ∧
    demoObserverCfg.target = demoToolbar1 := by
  have h := c4_observer_config demoEnv initialHeaderState
    demoPage demoContent demoMainHeader demoMainIndex demoScrollIndex
    demoScrollTb0 [{ el := demoToolbar2, ionTitleEl := none }]
    rfl rfl rfl rfl rfl rfl rfl rfl
  obtain ⟨cfg, hobs, hthr, htop, -, -, -, htgt, -, -, -⟩ := h
  have hcfg : cfg = demoObserverCfg := by
    have : some cfg = some demoObserverCfg := by
      rw [← hobs]; rfl
    exact Option.some.inj this
  subst hcfg
  exact ⟨hobs, hthr, htop, htgt⟩

/-- C6: once the controller is active, exactly one of the two headers'
active flags is set — false on the primary, true on the condensing header
right after setup — and every intersection callback preserves this
exclusivity. -/
theorem c6_active_flag_exclusivity (env : Env) (st : HeaderState)
    (p c mh : Dom) (mIdx0 sIdx : HeaderIndex) (tb0 : ToolbarIndex)
    (tbrest : List ToolbarIndex)
    (hini : st.collapsibleHeaderInitialized = false)
    (hcan : canCollapse env = true)
    (hpage : findPageEl env.ancestors = some p)
    (hcont : querySelector p isContent = some c)
    (hmain : findMainHeader p = some mh)
    (hmidx : createHeaderIndex mh = some mIdx0)
    (hsidx : createHeaderIndex env.selfEl = some sIdx)
    (htb : sIdx.toolbars = tb0 :: tbrest) :
    (∃ m s : HeaderIndex,
      (checkCollapsibleHeader env st).1.mainHeaderIndex = some m ∧
      (checkCollapsibleHeader env st).1.scrollHeaderIndex = some s ∧
      m.isActive = false ∧ s.isActive = true ∧ m.isActive ≠ s.isActive) ∧
    (∀ (r cut : ℚ) (a b : HeaderIndex),
      ((handleToolbarIntersection r cut a b).1).isActive ≠
        ((handleToolbarIntersection r cut a b).2).isActive) := by
  constructor
  · rw [checkCollapsible_setup_eq env st p c mh mIdx0 sIdx tb0 tbrest
      hini hcan hpage hcont hmain hmidx hsidx htb]
    refine ⟨setHeaderActive mIdx0 false, sIdx, rfl, rfl, rfl,
      createHeaderIndex_isActive hsidx, ?_⟩
    rw [createHeaderIndex_isActive hsidx]
    simp [setHeaderActive]
  · intro r cut a b
    by_cases h : r < cut <;> simp [handleToolbarIntersection, h, setHeaderActive]

/-- Witness for C6 on the demo page and a sample callback at ratio 0.1
against cutoff 0.2. -/
theorem c6_active_flag_exclusivity_witness :
    (∃ m s : HeaderIndex,
      demoActiveState.mainHeaderIndex = some m ∧
      demoActiveState.scrollHeaderIndex = some s ∧
      m.isActive = false ∧ s.isActive = true ∧ m.isActive ≠ s.isActive) ∧
    ((handleToolbarIntersection (1 / 10) (1 / 5) demoMainIndex demoScrollIndex).1).isActive ≠
      ((handleToolbarIntersection (1 / 10) (1 / 5) demoMainIndex demoScrollIndex).2).isActive := by
  have h := c6_active_flag_exclusivity demoEnv initialHeaderState
    demoPage demoContent demoMainHeader demoMainIndex demoScrollIndex
    demoScrollTb0 [{ el := demoToolbar2, ionTitleEl := none }]
    rfl rfl rfl rfl rfl rfl rfl rfl
  exact ⟨h.1, h.2 (1 / 10) (1 / 5) demoMainIndex demoScrollIndex⟩

/-- C10: during every successful setup — hence before any scroll event or
intersection callback can fire — the primary header's active flag is set to
false (its deactivation is the very first effect), leaving the condensing
header as the active one. -/
theorem c10_primary_deactivated_on_setup (env : Env) (st : HeaderState)
    (p c mh : Dom) (mIdx0 sIdx : HeaderIndex) (tb0 : ToolbarIndex)
    (tbrest : List ToolbarIndex)
    (hini : st.collapsibleHeaderInitialized = false)
    (hcan : canCollapse env = true)
    (hpage : findPageEl env.ancestors = some p)
    (hcont : querySelector p isContent = some c)
    (hmain : findMainHeader p = some mh)
    (hmidx : createHeaderIndex mh = some mIdx0)
    (hsidx : createHeaderIndex env.selfEl = some sIdx)
    (htb : sIdx.toolbars = tb0 :: tbrest) :
    ∃ m s : HeaderIndex,
      (checkCollapsibleHeader env st).1.mainHeaderIndex = some m ∧
      m.isActive = false ∧
      (checkCollapsibleHeader env st).1.scrollHeaderIndex = some s ∧
      s.isActive = true ∧
      (checkCollapsibleHeader env st).2.head? =
        some (Effect.setActiveClass m.el false) := by
  rw [checkCollapsible_setup_eq env st p c mh mIdx0 sIdx tb0 tbrest
    hini hcan hpage hcont hmain hmidx hsidx htb]
  exact ⟨setHeaderActive mIdx0 false, sIdx, rfl, rfl, rfl,
    createHeaderIndex_isActive hsidx, rfl⟩

/-- Witness for C10 on the demo page. -/
theorem c10_primary_deactivated_on_setup_witness :
    ∃ m s : HeaderIndex,
      demoActiveState.mainHeaderIndex = some m ∧
      m.isActive = false ∧
      demoActiveState.scrollHeaderIndex = some s ∧
      s.isActive = true ∧
      (checkCollapsibleHeader demoEnv initialHeaderState).2.head? =
        some (Effect.setActiveClass m.el false) :=
  c10_primary_deactivated_on_setup demoEnv initialHeaderState
    demoPage demoContent demoMainHeader demoMainIndex demoScrollIndex
    demoScrollTb0 [{ el := demoToolbar2, ionTitleEl := none }]
    rfl rfl rfl rfl rfl rfl rfl rfl

/-- Counterexample to C1 as stated: on a page with a content region but no
primary header, the update marks the controller initialized (so the next
cycle does not retry) and emits only the clone effects — no error is
logged. -/
theorem c1_counterexample :
    canCollapse envNoMain = true ∧
    findMainHeader pageNoMain = none ∧
    (checkCollapsibleHeader envNoMain initialHeaderState).1.collapsibleHeaderInitialized =
      true ∧
    (checkCollapsibleHeader envNoMain initialHeaderState).2 =
      [Effect.cloneEl "ion-title", Effect.cloneEl "ion-back-button"] :=
  ⟨rfl, rfl, rfl, rfl⟩

/-- C1 amended: when the page container or the scrollable content region
cannot be located, the controller logs, performs no subsystem setup and
remains not-initialized, so the next update retries; when only the primary
header cannot be located, the controller skips observer and scroll-listener
setup without throwing or logging, but still resolves the scroll element,
still schedules the clone pass, and marks itself initialized, so the next
update does not retry. -/
theorem c1_soft_failure_amended (env : Env) (st : HeaderState)
    (hini : st.collapsibleHeaderInitialized = false)
    (hcan : canCollapse env = true) :
    ((findPageEl env.ancestors).bind (fun p => querySelector p isContent) = none →
      checkCollapsibleHeader env st =
        (st, [Effect.consoleError
          "ion-header requires a content to collapse, make sure there is an ion-content."]) ∧
      (checkCollapsibleHeader env st).1.collapsibleHeaderInitialized = false) ∧
    (∀ p c : Dom, findPageEl env.ancestors = some p →
      querySelector p isContent = some c →
      findMainHeader p = none →
      checkCollapsibleHeader env st =
        ({ st with
            collapsibleHeaderInitialized := true
            scrollEl := some (env.getScrollElement c) },
         [Effect.cloneEl "ion-title", Effect.cloneEl "ion-back-button"])) := by
  constructor
  · intro hmiss
    have heq := checkCollapsible_missing_content_eq env st hini hcan hmiss
    exact ⟨heq, by rw [heq, hini]⟩
  · intro p c hpage hcont hmain
    exact checkCollapsible_missing_main_eq env st p c hini hcan hpage hcont hmain

/-- Witness for the amended C1: a page without `ion-content` logs and
stays uninitialized; a page without a primary header becomes initialized
with only the clone effects. -/
theorem c1_soft_failure_amended_witness :
    (checkCollapsibleHeader envNoContent initialHeaderState =
      (initialHeaderState,
       [Effect.consoleError
         "ion-header requires a content to collapse, make sure there is an ion-content."]) ∧
     (checkCollapsibleHeader envNoContent initialHeaderState).1.collapsibleHeaderInitialized =
       false) ∧
    checkCollapsibleHeader envNoMain initialHeaderState =
      ({ initialHeaderState with
          collapsibleHeaderInitialized := true
          scrollEl := some demoContent },
       [Effect.cloneEl "ion-title", Effect.cloneEl "ion-back-button"]) :=
  ⟨(c1_soft_failure_amended envNoContent initialHeaderState rfl rfl).1 rfl,
   (c1_soft_failure_amended envNoMain initialHeaderState rfl rfl).2
     pageNoMain demoContent rfl rfl rfl⟩

/-- Counterexample to C2 as stated: after tear-down (observer disconnected,
listener removed) the initialized flag is still set, so a later update with
collapsing re-enabled is a strict no-op — the Uninitialized-to-Active setup
is not performed again and no observer is re-created. -/
theorem c2_counterexample :
    (checkCollapsibleHeader demoEnvOff demoActiveState).2 =
      [Effect.disconnectObserver, Effect.removeScrollListener demoContent] ∧
    demoTornDownState.collapsibleHeaderInitialized = true ∧
    checkCollapsibleHeader demoEnv demoTornDownState = (demoTornDownState, []) ∧
    (checkCollapsibleHeader demoEnv demoTornDownState).1.intersectionObserver = none :=
  ⟨rfl, rfl, rfl, rfl⟩

/-- C2 amended: when an update detects that collapse mode is off or the
platform mode is no longer eligible, an active controller disconnects the
visibility observer and removes the scroll listener from the scroll
container; however the initialized flag is not cleared, so a later update
with collapsing re-enabled performs no Uninitialized-to-Active setup. -/
theorem c2_teardown_amended (env : Env) (st : HeaderState)
    (cfg : ObserverConfig) (sc : Dom) (cb : ScrollCallbackCfg)
    (hini : st.collapsibleHeaderInitialized = true)
    (hcan : canCollapse env = false)
    (hobs : st.intersectionObserver = some cfg)
    (hsc : st.scrollEl = some sc)
    (hcb : st.contentScrollCallback = some cb) :
    checkCollapsibleHeader env st =
      ({ st with intersectionObserver := none, contentScrollCallback := none },
       [Effect.disconnectObserver, Effect.removeScrollListener sc]) ∧
    (checkCollapsibleHeader env st).1.collapsibleHeaderInitialized = true ∧
    (∀ env2 : Env, canCollapse env2 = true →
      checkCollapsibleHeader env2 (checkCollapsibleHeader env st).1 =
        ((checkCollapsibleHeader env st).1, [])) := by
  have heq := checkCollapsible_destroy_eq env st cfg sc cb hini hcan hobs hsc hcb
  refine ⟨heq, by rw [heq]; exact hini, fun env2 hcan2 => ?_⟩
  rw [heq]
  exact checkCollapsible_active_noop env2 _ hini hcan2

/-- Witness for the amended C2 on the demo lifecycle: tear-down after the
demo setup, then an attempted re-enable which performs nothing. -/
theorem c2_teardown_amended_witness :
    checkCollapsibleHeader demoEnvOff demoActiveState =
      ({ demoActiveState with intersectionObserver := none, contentScrollCallback := none },
       [Effect.disconnectObserver, Effect.removeScrollListener demoContent]) ∧
    (checkCollapsibleHeader demoEnvOff demoActiveState).1.collapsibleHeaderInitialized = true ∧
    checkCollapsibleHeader demoEnv (checkCollapsibleHeader demoEnvOff demoActiveState).1 =
      ((checkCollapsibleHeader demoEnvOff demoActiveState).1, []) := by
  have h := c2_teardown_amended demoEnvOff demoActiveState demoObserverCfg
    demoContent { remainingHeight := 56 } rfl rfl rfl rfl rfl
  exact ⟨h.1, h.2.1, h.2.2 demoEnv rfl⟩
